import Mathlib

/-!
Verification development for the bursary-management backend's student
allocation lifecycle and SMS notification subsystem.

Strings from the Python source are modelled as lists of characters
(`Str`); Python's falsy empty string / `None` for optional text fields is
modelled by the empty list.  Each definition is a direct shallow embedding
of the corresponding Python function; names follow the source.
-/

abbrev Str := List Char

/-- `re.sub(r'[^\d]', '', s)`: keep only the digit characters of `s`. -/
def digitsOf (s : Str) : Str := s.filter Char.isDigit

/-- `students/sms.py::clean_phone_number` returns a pair
`(cleaned_number, error_message)` where exactly one side is set;
we model it as a sum. -/
inductive CleanResult where
  | ok (phone : Str)
  | err (msg : Str)
deriving DecidableEq, Repr

/-- The success component of a `CleanResult` (the `cleaned_number` slot). -/
def CleanResult.okPart : CleanResult → Option Str
  | .ok p => some p
  | .err _ => none

/-- Shallow embedding of `students/sms.py::clean_phone_number` (lines
10–36): empty input is rejected up front; otherwise all non-digit
characters are stripped and the digit string is dispatched on shape. -/
def clean_phone_number (phone_number : Str) : CleanResult :=
  if phone_number = [] then
    .err "Phone number is empty".data
  else
    let digits := digitsOf phone_number
    if "2547".data.isPrefixOf digits ∧ digits.length = 12 then
      .ok digits
    else if "07".data.isPrefixOf digits ∧ digits.length = 10 then
      .ok ("254".data ++ digits.drop 1)
    else if "7".data.isPrefixOf digits ∧ digits.length = 9 then
      .ok ("254".data ++ digits)
    else if "+2547".data.isPrefixOf digits ∧ digits.length = 13 then
      .ok (digits.drop 1)
    else
      .err "Invalid phone format. Must be: 7XXXXXXXX, 07XXXXXXXX, or 2547XXXXXXXX".data

/-- `clean_phone_number` with its dead `'+2547'` branch removed; used to
state that the branch is unreachable. -/
def clean_phone_number_noplus (phone_number : Str) : CleanResult :=
  if phone_number = [] then
    .err "Phone number is empty".data
  else
    let digits := digitsOf phone_number
    if "2547".data.isPrefixOf digits ∧ digits.length = 12 then
      .ok digits
    else if "07".data.isPrefixOf digits ∧ digits.length = 10 then
      .ok ("254".data ++ digits.drop 1)
    else if "7".data.isPrefixOf digits ∧ digits.length = 9 then
      .ok ("254".data ++ digits)
    else
      .err "Invalid phone format. Must be: 7XXXXXXXX, 07XXXXXXXX, or 2547XXXXXXXX".data

/-- Shallow embedding of
`students/serializers.py::StudentSerializer._format_phone_for_sms`
(lines 79–102): the write-time phone validator.  Its second branch carries
the redundant `digits[1] == '7'` check and it has an extra branch
accepting any 12-digit string starting with `254`. -/
def format_phone_for_sms (phone : Str) : Option Str :=
  if phone = [] then
    none
  else
    let digits := digitsOf phone
    if "2547".data.isPrefixOf digits ∧ digits.length = 12 then
      some digits
    else if ("07".data.isPrefixOf digits ∧ digits.length = 10) ∧ digits[1]? = some '7' then
      some ("254".data ++ digits.drop 1)
    else if "7".data.isPrefixOf digits ∧ digits.length = 9 then
      some ("254".data ++ digits)
    else if "254".data.isPrefixOf digits ∧ digits.length = 12 then
      some digits
    else
      none

example : clean_phone_number "0712345678".data = .ok "254712345678".data := by decide
example : clean_phone_number "712345678".data = .ok "254712345678".data := by decide
example : clean_phone_number "254712345678".data = .ok "254712345678".data := by decide
example : clean_phone_number "+254712345678".data = .ok "254712345678".data := by decide
example : (clean_phone_number "abc".data).okPart = none := by decide
example : format_phone_for_sms "254112345678".data = some "254112345678".data := by decide
example : (clean_phone_number "254112345678".data).okPart = none := by decide

/-! ## The student allocation record (`students/models.py::Student`) -/

inductive Status where
  | pending | approved | disbursed | rejected
deriving DecidableEq, Repr

/-- The `sms_status` values; `mixed` stands for the source's string value
for a mixed outcome (some sends succeeded and some failed). -/
inductive SmsStatus where
  | not_sent | sent | failed | mixed
deriving DecidableEq, Repr

inductive EducationLevel where
  | high_school | college | university
deriving DecidableEq, Repr

/-- The fields of `Student` the lifecycle and notification subsystem
reads or writes.  Text fields that Python treats by truthiness
(`phone`, `guardian_phone`, the rejection reason) are `Str` with `[]`
standing for both `''` and `None`; timestamps are abstract instants
(`Nat`); principal references are user ids. -/
structure Student where
  id : Nat
  phone : Str
  guardian_phone : Str
  education_level : EducationLevel
  course : Str
  status : Status
  sms_status : SmsStatus
  sms_sent_at : Option Nat
  sms_sent_by : Option Nat
  rejection_reason : Str
  date_processed : Option Nat
  updated_by : Option Nat
deriving DecidableEq, Repr

/-- `Student.save` (models.py lines 122–131): blanks the course for
high-school records and sets `date_processed` when the status is
approved/disbursed/rejected and it is not already set. -/
def Student.save (now : Nat) (st : Student) : Student :=
  let st := if st.education_level = .high_school then { st with course := [] } else st
  if (st.status = .approved ∨ st.status = .disbursed ∨ st.status = .rejected)
      ∧ st.date_processed = none then
    { st with date_processed := some now }
  else
    st

/-- `Student.can_send_sms` (models.py lines 191–202). -/
def Student.can_send_sms (st : Student) : Bool × Str :=
  if st.phone = [] ∧ st.guardian_phone = [] then
    (false, "No phone number available".data)
  else if st.status ≠ .approved then
    (false, "Student must be approved to send SMS".data)
  else if st.sms_status = .sent then
    (false, "SMS already sent".data)
  else
    (true, "OK".data)

/-! ## Status transition endpoints (`students/views.py`) -/

/-- `StudentViewSet.approve` (views.py lines 41–60): rejects only an
already-approved record; otherwise sets status, `date_processed := now`
and the acting user, then runs the model save hook. -/
def approve_view (user now : Nat) (st : Student) : Except Str Student :=
  if st.status = .approved then
    .error "Student is already approved.".data
  else
    .ok (Student.save now
      { st with status := .approved, date_processed := some now, updated_by := some user })

/-- `StudentViewSet.reject` (views.py lines 62–83): rejects only an empty
reason; otherwise sets status, `date_processed := now`, the reason and
the acting user, then runs the model save hook. -/
def reject_view (user now : Nat) (reason : Str) (st : Student) : Except Str Student :=
  if reason = [] then
    .error "Rejection reason is required.".data
  else
    .ok (Student.save now
      { st with status := .rejected, date_processed := some now,
                rejection_reason := reason, updated_by := some user })

/-! ## Recipient set construction (views.py lines 100–118 and 246–263) -/

/-- The `phones_to_send` list: `(role, phone)` pairs, student first. -/
def phones_to_send (st : Student) : List (Str × Str) :=
  (if st.phone ≠ [] then [("student".data, st.phone)] else []) ++
  (if st.guardian_phone ≠ [] then [("guardian".data, st.guardian_phone)] else [])

/-- Ordered-association-list lookup, modelling `phone_number in unique_phones`
/ `unique_phones[phone_number]` on the Python dict keyed by raw phone. -/
def assocFind (acc : List (Str × Str)) (k : Str) : Option Str :=
  match acc with
  | [] => none
  | (k', v) :: t => if k' = k then some v else assocFind t k

/-- In-place value update for an existing key, preserving dict order. -/
def assocUpdate (acc : List (Str × Str)) (k v : Str) : List (Str × Str) :=
  match acc with
  | [] => []
  | (k', v') :: t => if k' = k then (k, v) :: t else (k', v') :: assocUpdate t k v

/-- One step of building `unique_phones`: a new raw phone is appended with
its role; a raw phone already present has the new role concatenated onto
its tag with `/` unless the role is already a substring of the tag. -/
def addPhone (acc : List (Str × Str)) (entry : Str × Str) : List (Str × Str) :=
  match assocFind acc entry.2 with
  | none => acc ++ [(entry.2, entry.1)]
  | some existing =>
      if entry.1 <:+: existing then acc
      else assocUpdate acc entry.2 (existing ++ "/".data ++ entry.1)

/-- The `unique_phones` dict as an ordered `(raw phone, role tag)` list:
deduplication is by the raw stored phone string. -/
def unique_phones (st : Student) : List (Str × Str) :=
  (phones_to_send st).foldl addPhone []

/-! ## The send loop and per-record aggregation -/

/-- Outcome of one `send_sms_notification` call as the view observes it:
a `(True, …)` return, a `(False, …)` return, or a raised exception
(caught by the view's per-phone `try/except`). -/
inductive SendOutcome where
  | ok | fail | raises
deriving DecidableEq, Repr

/-- One entry of the view's `results` list. -/
structure PhoneResult where
  phone : Str
  role : Str
  success : Bool
deriving DecidableEq, Repr

/-- The per-phone body of the send loop: a raised exception is recorded
exactly like a failed return. -/
def runSends (gw : Str → SendOutcome) (phones : List (Str × Str)) : List PhoneResult :=
  phones.map (fun pr =>
    { phone := pr.1, role := pr.2,
      success := match gw pr.1 with | .ok => true | .fail => false | .raises => false })

def successCount (rs : List PhoneResult) : Nat := (rs.filter (·.success)).length

def failureCount (rs : List PhoneResult) : Nat := (rs.filter (fun r => !r.success)).length

/-- Lines 169–180 of views.py (and 314–327 in bulk): the aggregation of
per-phone results into the record, with `sms_sent_at`/`sms_sent_by`
assigned on every path. -/
def applySmsResults (user now : Nat) (st : Student) (rs : List PhoneResult) : Student :=
  let sms := if successCount rs > 0 then
               (if failureCount rs = 0 then SmsStatus.sent else SmsStatus.mixed)
             else SmsStatus.failed
  { st with sms_status := sms, sms_sent_at := some now, sms_sent_by := some user }

/-- `StudentViewSet.send_sms` (views.py lines 85–206), with the gateway
abstracted as a function from the raw phone string to an outcome:
refuses up front (HTTP 400, `none`) exactly when both phone fields are
empty; otherwise sends to every entry of `unique_phones`, then updates
and saves the record.  The returned list has one entry per gateway
invocation. -/
def send_sms (gw : Str → SendOutcome) (user now : Nat) (st : Student) :
    Option (Student × List PhoneResult) :=
  if st.phone = [] ∧ st.guardian_phone = [] then
    none
  else
    let results := runSends gw (unique_phones st)
    some (Student.save now (applySmsResults user now st results), results)

/-! ## Bulk notification (`StudentViewSet.bulk_send_sms`, views.py 208–346) -/

/-- One entry of the bulk endpoint's `student_results` list.
`counted_success` is the entry's `status` field (`'sent'` vs `'failed'`),
which is also exactly the condition under which the record was added to
the overall success count. -/
structure StudentResult where
  student_id : Nat
  counted_success : Bool
  phones_sent : Nat
  phones_failed : Nat
deriving DecidableEq, Repr

/-- The running state of the bulk loop: overall success count, overall
failure count, `student_results`, and the updated records. -/
structure BulkAcc where
  success_count : Nat
  failure_count : Nat
  results : List StudentResult
  updated : List Student
deriving DecidableEq, Repr

/-- The loop body for one eligible record (views.py 241–337): a record
with no phones is recorded as failed and skipped without saving; otherwise
every unique raw phone gets one send (exceptions recorded as failures),
and the record's own aggregation from lines 314–327 runs. -/
def bulkStep (gw : Nat → Str → SendOutcome) (user now : Nat)
    (acc : BulkAcc) (st : Student) : BulkAcc :=
  let uniq := unique_phones st
  if uniq = [] then
    { acc with failure_count := acc.failure_count + 1,
               results := acc.results ++ [⟨st.id, false, 0, 0⟩],
               updated := acc.updated ++ [st] }
  else
    let rs := runSends (gw st.id) uniq
    let sent := successCount rs
    let failed := failureCount rs
    let st' := Student.save now (applySmsResults user now st rs)
    { success_count := if sent > 0 then acc.success_count + 1 else acc.success_count,
      failure_count := if sent > 0 then acc.failure_count else acc.failure_count + 1,
      results := acc.results ++ [⟨st.id, decide (sent > 0), sent, failed⟩],
      updated := acc.updated ++ [st'] }

/-- The bulk endpoint's three-way response shape: 400 when no ids were
given, an early 200 when no approved record matches, else the aggregate
report. -/
inductive BulkResponse where
  | noIds
  | noneEligible
  | report (acc : BulkAcc)
deriving DecidableEq, Repr

/-- The queryset filter `id__in=student_ids, status='approved'` (views.py
226–229): only requested ids currently approved, in store order. -/
def eligible_students (store : List Student) (student_ids : List Nat) : List Student :=
  store.filter (fun s => student_ids.contains s.id && s.status == Status.approved)

/-- `StudentViewSet.bulk_send_sms`: filters the store to the requested ids
that are currently `approved` (ineligible ids are silently dropped) and
folds `bulkStep` over them.  `store` is the record store in its queryset
order. -/
def bulk_send_sms (gw : Nat → Str → SendOutcome) (user now : Nat)
    (store : List Student) (student_ids : List Nat) : BulkResponse :=
  if student_ids = [] then
    .noIds
  else
    let students := eligible_students store student_ids
    if students = [] then
      .noneEligible
    else
      .report (students.foldl (bulkStep gw user now) ⟨0, 0, [], []⟩)

/-! ## The real provider (`students/sms.py::send_via_blessed_texts`, 93–127) -/

/-- A parsed response-body item (`data[0]` of a list response) with its
optional `status_code` and `status_desc` fields. -/
structure BTItem where
  status_code : Option Str
  status_desc : Option Str
deriving DecidableEq, Repr

/-- The parsed JSON body as the code inspects it: a list of items, a dict
with an optional `status_code` field, or any other JSON value. -/
inductive JsonBody where
  | jlist (items : List BTItem)
  | jdict (status_code : Option Str)
  | jother
deriving DecidableEq, Repr

/-- What `requests.post` produced: a response (with HTTP status, the JSON
parse result — `none` when `response.json()` raises — and the raw text),
a timeout, a connection error, or any other exception. -/
inductive HttpResult where
  | response (statusCode : Nat) (parsed : Option JsonBody) (text : Str)
  | timeout
  | connError
  | otherExc (msg : Str)
deriving DecidableEq, Repr

/-- The second component of the provider's `(success, detail)` return:
failure paths carry a message string, success paths return the parsed
payload. -/
inductive SendDetail where
  | text (s : Str)
  | payload (b : JsonBody)
deriving DecidableEq, Repr

/-- `send_via_blessed_texts` with the network interaction abstracted as an
`HttpResult`: fails fast on a missing API key or a non-canonical phone,
truncates long messages, and interprets the provider response.  Every
branch returns a pair — the exception handlers at lines 122–127 are the
`timeout`/`connError`/`otherExc` arms — so the operation never raises. -/
def send_via_blessed_texts (api_key : Str) (net : HttpResult)
    (phone message : Str) : Bool × SendDetail :=
  if api_key = [] then
    (false, .text "Blessed Texts API key not configured".data)
  else if ¬("2547".data.isPrefixOf phone ∧ phone.length = 12) then
    (false, .text "Invalid phone format. Must be 2547XXXXXXXX".data)
  else
    let _msg := if message.length > 160 then message.take 157 ++ "...".data else message
    match net with
    | .response code parsed text =>
        if code = 200 then
          match parsed with
          | none => (false, .text ("Invalid JSON response: ".data ++ text))
          | some body =>
              match body with
              | .jlist (first :: rest) =>
                  if first.status_code = some "1000".data then
                    (true, .payload (.jlist (first :: rest)))
                  else
                    (false, .text (first.status_desc.getD "Unknown error".data))
              | .jdict c =>
                  if c = some "1000".data then (true, .payload (.jdict c))
                  else (false, .text "Unexpected response".data)
              | .jlist [] => (false, .text "Unexpected response".data)
              | .jother => (false, .text "Unexpected response".data)
        else
          (false, .text ("HTTP ".data ++ text))
    | .timeout => (false, .text "Request timeout".data)
    | .connError => (false, .text "Connection error".data)
    | .otherExc msg => (false, .text ("Error: ".data ++ msg))

/-- The `status_code` field the provider code examines: `data[0].get` for
a non-empty list response, `data.get` for a dict response, absent
otherwise. -/
def JsonBody.successField : JsonBody → Option Str
  | .jlist (first :: _) => first.status_code
  | .jdict c => c
  | _ => none

/-! ## Helper lemmas -/

theorem prefixOf_true_iff {l₁ l₂ : Str} : l₁.isPrefixOf l₂ = true ↔ l₁ <+: l₂ :=
  List.isPrefixOf_iff_prefix

theorem digitsOf_idem (s : Str) : digitsOf (digitsOf s) = digitsOf s := by
  simp [digitsOf, List.filter_filter]

/-- The stripped digit string never starts with `'+'`, so the source's
`digits.startswith('+2547')` test can never succeed. -/
theorem plus_branch_dead (s : Str) :
    "+2547".data.isPrefixOf (digitsOf s) = false := by
  rw [Bool.eq_false_iff]
  intro h
  have hpre := prefixOf_true_iff.mp h
  have hmem : '+' ∈ digitsOf s := hpre.subset (by decide)
  have hdig : Char.isDigit '+' = true := (List.mem_filter.mp hmem).2
  exact absurd hdig (by decide)

/-- Prop form of `plus_branch_dead`, with the literal spelled as the char
list simp normalizes it to. -/
theorem plus_branch_dead_prop (s : Str) : ¬ (['+', '2', '5', '4', '7'] <+: digitsOf s) := by
  intro h
  have h' : "+2547".data <+: digitsOf s := by
    rw [show "+2547".data = ['+', '2', '5', '4', '7'] from by decide]
    exact h
  have := prefixOf_true_iff.mpr h'
  rw [plus_branch_dead s] at this
  exact Bool.false_ne_true this

/-- A digit string starting with `07` has `'7'` in position 1. -/
theorem second_char_of_07 (d : Str) (h : "07".data.isPrefixOf d = true) :
    d[1]? = some '7' := by
  obtain ⟨t, ht⟩ := prefixOf_true_iff.mp h
  rw [← ht, show "07".data = ['0', '7'] from by decide]
  simp

/-! ## Claim C2 — phone normalization shapes -/

/-- C2: for every input string, normalization strips all non-digit
characters and then dispatches on the digit string's shape: 12 digits
starting `2547` returned unchanged, 10 digits starting `07` with the
leading `0` replaced by `254`, 9 digits starting `7` prefixed with `254`,
and any other shape is an error; with the spec's four concrete examples. -/
theorem C2_phone_normalization (x : Str) :
    (("2547".data <+: digitsOf x ∧ (digitsOf x).length = 12) →
        clean_phone_number x = .ok (digitsOf x)) ∧
    (("07".data <+: digitsOf x ∧ (digitsOf x).length = 10) →
        clean_phone_number x = .ok ("254".data ++ (digitsOf x).drop 1)) ∧
    (("7".data <+: digitsOf x ∧ (digitsOf x).length = 9) →
        clean_phone_number x = .ok ("254".data ++ digitsOf x)) ∧
    (¬ ("2547".data <+: digitsOf x ∧ (digitsOf x).length = 12) →
     ¬ ("07".data <+: digitsOf x ∧ (digitsOf x).length = 10) →
     ¬ ("7".data <+: digitsOf x ∧ (digitsOf x).length = 9) →
        ∀ c, clean_phone_number x ≠ .ok c) ∧
    clean_phone_number "0712345678".data = .ok ("254712345678".data) ∧
    clean_phone_number "712345678".data = .ok ("254712345678".data) ∧
    clean_phone_number "254712345678".data = .ok ("254712345678".data) ∧
    (clean_phone_number "abc".data).okPart = none := by
  refine ⟨?_, ?_, ?_, ?_, by decide, by decide, by decide, by decide⟩
  · rintro ⟨hp, hl⟩
    have hx : x ≠ [] := by
      intro h
      rw [h] at hl
      simp [digitsOf] at hl
    have hb := prefixOf_true_iff.mpr hp
    simp [clean_phone_number, hx, hb, hl]
  · rintro ⟨hp, hl⟩
    have hx : x ≠ [] := by
      intro h
      rw [h] at hl
      simp [digitsOf] at hl
    have hb := prefixOf_true_iff.mpr hp
    simp [clean_phone_number, hx, hb, hl]
  · rintro ⟨hp, hl⟩
    have hx : x ≠ [] := by
      intro h
      rw [h] at hl
      simp [digitsOf] at hl
    have hb := prefixOf_true_iff.mpr hp
    simp [clean_phone_number, hx, hb, hl]
  · intro h1 h2 h3 c
    by_cases hx : x = []
    · simp [clean_phone_number, hx]
    · simp [clean_phone_number, hx, prefixOf_true_iff, h1, h2, h3,
        plus_branch_dead_prop]

/-- Witness: the `07` branch of `C2_phone_normalization`, applied at the
spec's example input. -/
theorem C2_phone_normalization_witness :
    clean_phone_number "0712345678".data = .ok ("254712345678".data) :=
  (C2_phone_normalization "0712345678".data).2.1 (by decide)

/-! ## Claim C10 — digit-dependence of normalization -/

/-- C10 counterexample: `clean_phone_number` is not literally invariant
under first stripping to the digit subsequence — on `"abc"` the digits
are empty, and the empty-input guard produces a different error message
than the invalid-format branch. -/
theorem C10_counterexample :
    clean_phone_number "abc".data ≠ clean_phone_number (digitsOf "abc".data) := by
  decide

/-- C10 amended: the accept/reject outcome and the canonical output of
normalization depend only on the digit characters (`okPart` agrees
everywhere, and the full result agrees whenever stripping leaves at
least one digit — only the error message differs on a non-empty input
with no digits); and the `'+'` branch is unreachable for every input:
the function equals its own copy with that branch removed. -/
theorem C10_digit_dependence (x : Str) :
    (clean_phone_number x).okPart = (clean_phone_number (digitsOf x)).okPart ∧
    (digitsOf x ≠ [] → clean_phone_number x = clean_phone_number (digitsOf x)) ∧
    clean_phone_number x = clean_phone_number_noplus x := by
  have key : digitsOf x ≠ [] → clean_phone_number x = clean_phone_number (digitsOf x) := by
    intro hd
    have hx : x ≠ [] := by
      intro h
      rw [h] at hd
      exact hd rfl
    unfold clean_phone_number
    rw [if_neg hx, if_neg hd, digitsOf_idem]
  have noplus : clean_phone_number x = clean_phone_number_noplus x := by
    by_cases hx : x = []
    · simp [clean_phone_number, clean_phone_number_noplus, hx]
    · simp [clean_phone_number, clean_phone_number_noplus, hx, plus_branch_dead_prop]
  refine ⟨?_, key, noplus⟩
  by_cases hd : digitsOf x = []
  · by_cases hx : x = []
    · rw [hx]
      decide
    · simp [clean_phone_number, hx, hd, CleanResult.okPart]
  · rw [key hd]

/-- Witness: full invariance at the spec's `+2547…` example, whose digit
subsequence is non-empty. -/
theorem C10_digit_dependence_witness :
    clean_phone_number "+254712345678".data
      = clean_phone_number (digitsOf "+254712345678".data) :=
  (C10_digit_dependence "+254712345678".data).2.1 (by decide)

/-! ## Claim C3 — write-time vs send-time phone validation -/

/-- C3 counterexample: the write-time serializer accepts the 12-digit
non-`2547` string `"254112345678"` (its extra `254`-prefix branch), but
the send-time normalizer rejects the same input, so the two functions
are not the same. -/
theorem C3_counterexample :
    format_phone_for_sms "254112345678".data = some ("254112345678".data) ∧
    (clean_phone_number "254112345678".data).okPart = none := by
  decide

/-- C3 amended: the agreement holds in one direction only — every input
the send-time normalizer accepts is accepted by the write-time validator
with the identical canonical form (the converse fails, see the
counterexample: the write-time validator also accepts 12-digit strings
starting `254` but not `2547`). -/
theorem C3_write_validator_refines (x c : Str)
    (h : clean_phone_number x = .ok c) :
    format_phone_for_sms x = some c := by
  by_cases hx : x = []
  · rw [hx] at h
    simp [clean_phone_number] at h
  · by_cases h1 : (['2', '5', '4', '7'] <+: digitsOf x) ∧ (digitsOf x).length = 12
    · have hc : clean_phone_number x = .ok (digitsOf x) := by
        simp [clean_phone_number, hx, h1.1, h1.2]
      rw [hc] at h
      obtain rfl : digitsOf x = c := by injection h
      simp [format_phone_for_sms, hx, h1.1, h1.2]
    · by_cases h2 : (['0', '7'] <+: digitsOf x) ∧ (digitsOf x).length = 10
      · have hsecond : (digitsOf x)[1]? = some '7' := by
          apply second_char_of_07
          apply prefixOf_true_iff.mpr
          rw [show "07".data = ['0', '7'] from by decide]
          exact h2.1
        have hc : clean_phone_number x = .ok ("254".data ++ (digitsOf x).drop 1) := by
          simp [clean_phone_number, hx, h1, h2.1, h2.2]
        rw [hc] at h
        obtain rfl : "254".data ++ (digitsOf x).drop 1 = c := by injection h
        simp [format_phone_for_sms, hx, h1, h2.1, h2.2, hsecond]
      · by_cases h3 : (['7'] <+: digitsOf x) ∧ (digitsOf x).length = 9
        · have hc : clean_phone_number x = .ok ("254".data ++ digitsOf x) := by
            simp [clean_phone_number, hx, h1, h2, h3.1, h3.2]
          rw [hc] at h
          obtain rfl : "254".data ++ digitsOf x = c := by injection h
          simp [format_phone_for_sms, hx, h1, h2, h3.1, h3.2]
        · have hc : clean_phone_number x =
              .err "Invalid phone format. Must be: 7XXXXXXXX, 07XXXXXXXX, or 2547XXXXXXXX".data := by
            simp [clean_phone_number, hx, h1, h2, h3, plus_branch_dead_prop]
          rw [hc] at h
          exact CleanResult.noConfusion h

/-- Witness: the refinement direction at the spec's `0712345678` example. -/
theorem C3_write_validator_refines_witness :
    format_phone_for_sms "0712345678".data = some ("254712345678".data) :=
  C3_write_validator_refines "0712345678".data "254712345678".data (by decide)

/-! ## The model save hook's field behaviour -/

/-- `Student.save` never touches status, the SMS fields or the id. -/
theorem save_preserves (now : Nat) (s : Student) :
    (Student.save now s).status = s.status ∧
    (Student.save now s).sms_status = s.sms_status ∧
    (Student.save now s).sms_sent_at = s.sms_sent_at ∧
    (Student.save now s).sms_sent_by = s.sms_sent_by ∧
    (Student.save now s).id = s.id := by
  unfold Student.save
  by_cases h : s.education_level = EducationLevel.high_school <;> simp [h] <;> split <;> simp

/-- What `Student.save` does to `date_processed`: stamps `now` exactly
when the status is terminal-ish and the field is unset, else leaves it. -/
theorem save_date_processed (now : Nat) (s : Student) :
    (Student.save now s).date_processed =
      if (s.status = .approved ∨ s.status = .disbursed ∨ s.status = .rejected)
          ∧ s.date_processed = none then some now else s.date_processed := by
  unfold Student.save
  by_cases h : s.education_level = EducationLevel.high_school <;> simp [h] <;> split <;> simp_all

/-! ## Claim C8 — terminality of rejected/disbursed -/

/-- A rejected record with its processing date already set. -/
def stRejected : Student :=
  { id := 3, phone := "0712345678".data, guardian_phone := "0733333333".data,
    education_level := .university, course := "Law".data, status := .rejected,
    sms_status := .not_sent, sms_sent_at := none, sms_sent_by := none,
    rejection_reason := "late".data, date_processed := some 5, updated_by := none }

/-- A disbursed record. -/
def stDisbursed : Student :=
  { stRejected with id := 4, status := .disbursed, rejection_reason := [] }

/-- C8 counterexample: the approve endpoint moves a rejected record to
approved, and the reject endpoint moves a disbursed record to rejected —
neither status is terminal. -/
theorem C8_counterexample :
    (approve_view 7 42 stRejected).toOption.map Student.status = some Status.approved ∧
    (reject_view 7 42 ("changed".data) stDisbursed).toOption.map Student.status
      = some Status.rejected := by
  decide

/-- C8 amended: rejected and disbursed are not terminal.  The approve
endpoint guards only against re-approving an approved record, so it
transitions any non-approved record — rejected and disbursed included —
to approved; the reject endpoint guards only against an empty reason, so
it transitions any record — disbursed included — to rejected. -/
theorem C8_terminal_statuses_escape (user now : Nat) (reason : Str) (st : Student) :
    (st.status ≠ .approved →
       ∃ st', approve_view user now st = .ok st' ∧ st'.status = .approved) ∧
    (reason ≠ [] →
       ∃ st', reject_view user now reason st = .ok st' ∧ st'.status = .rejected) ∧
    (st.status = .approved →
       approve_view user now st = .error ("Student is already approved.".data)) ∧
    reject_view user now [] st = .error ("Rejection reason is required.".data) := by
  refine ⟨?_, ?_, ?_, ?_⟩
  · intro h
    refine ⟨Student.save now
      { st with status := .approved, date_processed := some now, updated_by := some user },
      ?_, ?_⟩
    · unfold approve_view
      rw [if_neg h]
    · exact (save_preserves now _).1
  · intro h
    refine ⟨Student.save now
      { st with status := .rejected, date_processed := some now,
                rejection_reason := reason, updated_by := some user },
      ?_, ?_⟩
    · unfold reject_view
      rw [if_neg h]
    · exact (save_preserves now _).1
  · intro h
    unfold approve_view
    rw [if_pos h]
  · unfold reject_view
    rw [if_pos rfl]

/-- Witness: the approve escape applied to the concrete rejected record. -/
theorem C8_terminal_statuses_escape_witness :
    ∃ st', approve_view 7 42 stRejected = .ok st' ∧ st'.status = Status.approved :=
  (C8_terminal_statuses_escape 7 42 ("changed".data) stRejected).1 (by decide)

/-! ## Claim C9 — date_processed set exactly once -/

/-- C9 counterexample: `stRejected` has `date_processed = some 5`; the
approve endpoint (a lifecycle transition out of rejected, possible per
C8) overwrites it with the transition time 42. -/
theorem C9_counterexample :
    stRejected.date_processed = some 5 ∧
    (approve_view 7 42 stRejected).toOption.map Student.date_processed
      = some (some 42) := by
  decide

/-- C9 amended: the model save hook alone sets `date_processed` at most
once — it stamps it only when unset and the status is terminal-ish, and
never changes a set value — but the approve and reject endpoints assign
`date_processed := now` unconditionally, so every successful approve or
reject overwrites any previously set value with the current time. -/
theorem C9_date_processed_behaviour (user now : Nat) (reason : Str) (st : Student) :
    (st.date_processed ≠ none →
       (Student.save now st).date_processed = st.date_processed) ∧
    (st.date_processed = none ∧
       (st.status = .approved ∨ st.status = .disbursed ∨ st.status = .rejected) →
       (Student.save now st).date_processed = some now) ∧
    (st.date_processed = none ∧
       ¬ (st.status = .approved ∨ st.status = .disbursed ∨ st.status = .rejected) →
       (Student.save now st).date_processed = none) ∧
    (∀ st', approve_view user now st = .ok st' → st'.date_processed = some now) ∧
    (∀ st', reject_view user now reason st = .ok st' → st'.date_processed = some now) := by
  refine ⟨?_, ?_, ?_, ?_, ?_⟩
  · intro h
    rw [save_date_processed]
    simp [h]
  · rintro ⟨h1, h2⟩
    rw [save_date_processed]
    simp [h1, h2]
  · rintro ⟨h1, h2⟩
    rw [save_date_processed]
    simp [h1, h2]
  · intro st' h
    unfold approve_view at h
    by_cases hs : st.status = Status.approved
    · rw [if_pos hs] at h
      exact Except.noConfusion h
    · rw [if_neg hs] at h
      obtain rfl : Student.save now _ = st' := by injection h
      rw [save_date_processed]
      simp
  · intro st' h
    unfold reject_view at h
    by_cases hr : reason = []
    · rw [if_pos hr] at h
      exact Except.noConfusion h
    · rw [if_neg hr] at h
      obtain rfl : Student.save now _ = st' := by injection h
      rw [save_date_processed]
      simp

/-- Witness: the overwrite conjunct applied to the concrete record of the
counterexample. -/
theorem C9_date_processed_behaviour_witness :
    (Student.save 42 stRejected).date_processed = stRejected.date_processed :=
  (C9_date_processed_behaviour 7 42 ("changed".data) stRejected).1 (by decide)

/-! ## Counting helpers for the send loop -/

theorem successCount_eq_zero_iff (rs : List PhoneResult) :
    successCount rs = 0 ↔ ∀ r ∈ rs, r.success = false := by
  induction rs with
  | nil => simp [successCount]
  | cons r t ih =>
      cases h : r.success <;> simp [successCount, List.filter_cons, h]

theorem failureCount_eq_zero_iff (rs : List PhoneResult) :
    failureCount rs = 0 ↔ ∀ r ∈ rs, r.success = true := by
  induction rs with
  | nil => simp [failureCount]
  | cons r t ih =>
      cases h : r.success <;> simp [failureCount, List.filter_cons, h]

theorem successCount_pos_iff (rs : List PhoneResult) :
    0 < successCount rs ↔ ∃ r ∈ rs, r.success = true := by
  rw [Nat.pos_iff_ne_zero, Ne, successCount_eq_zero_iff]
  simp

theorem failureCount_pos_iff (rs : List PhoneResult) :
    0 < failureCount rs ↔ ∃ r ∈ rs, r.success = false := by
  rw [Nat.pos_iff_ne_zero, Ne, failureCount_eq_zero_iff]
  simp

/-- The SMS bookkeeping fields written by the aggregation step. -/
theorem applySmsResults_fields (user now : Nat) (st : Student) (rs : List PhoneResult) :
    (applySmsResults user now st rs).sms_sent_at = some now ∧
    (applySmsResults user now st rs).sms_sent_by = some user ∧
    (applySmsResults user now st rs).sms_status =
      (if successCount rs > 0 then
        (if failureCount rs = 0 then SmsStatus.sent else SmsStatus.mixed)
       else SmsStatus.failed) := by
  simp [applySmsResults]

/-! ## The recipient set is never empty when a phone is present -/

theorem assocUpdate_length (acc : List (Str × Str)) (k v : Str) :
    (assocUpdate acc k v).length = acc.length := by
  induction acc with
  | nil => rfl
  | cons e t ih =>
      unfold assocUpdate
      split <;> simp [ih]

theorem addPhone_length_le (acc : List (Str × Str)) (e : Str × Str) :
    acc.length ≤ (addPhone acc e).length := by
  unfold addPhone
  cases h : assocFind acc e.2 with
  | none => simp
  | some existing => dsimp only; split <;> simp [assocUpdate_length]

theorem foldl_addPhone_length (ps : List (Str × Str)) (acc : List (Str × Str)) :
    acc.length ≤ (ps.foldl addPhone acc).length := by
  induction ps generalizing acc with
  | nil => simp
  | cons p t ih => exact le_trans (addPhone_length_le acc p) (ih (addPhone acc p))

theorem foldl_addPhone_cons_pos (x : Str × Str) (xs : List (Str × Str)) :
    0 < ((x :: xs).foldl addPhone []).length := by
  have h1 : (addPhone [] x).length = 1 := by simp [addPhone, assocFind]
  calc 0 < (addPhone [] x).length := by rw [h1]; exact Nat.one_pos
    _ ≤ ((x :: xs).foldl addPhone []).length := foldl_addPhone_length xs _

theorem unique_phones_length_pos (st : Student)
    (h : ¬ (st.phone = [] ∧ st.guardian_phone = [])) :
    0 < (unique_phones st).length := by
  unfold unique_phones
  by_cases hp : st.phone = []
  · have hg : st.guardian_phone ≠ [] := fun hg => h ⟨hp, hg⟩
    rw [show phones_to_send st = [("guardian".data, st.guardian_phone)] from by
      simp [phones_to_send, hp, hg]]
    exact foldl_addPhone_cons_pos _ _
  · rw [show phones_to_send st = ("student".data, st.phone) ::
        (if st.guardian_phone ≠ [] then [("guardian".data, st.guardian_phone)] else []) from by
      simp [phones_to_send, hp]]
    exact foldl_addPhone_cons_pos _ _

/-! ## Claim C1 — per-record sms_status aggregation -/

/-- C1: whenever a single-record notify runs (so at least one phone
attempt is made), the resulting record has `sms_sent_at`/`sms_sent_by`
stamped unconditionally, and its `sms_status` is the aggregation of the
per-phone outcomes: all fail → failed, all succeed → sent, some of each →
partial (`mixed`). -/
theorem C1_sms_status_aggregation (gw : Str → SendOutcome) (user now : Nat)
    (st st' : Student) (rs : List PhoneResult)
    (h : send_sms gw user now st = some (st', rs)) :
    rs ≠ [] ∧
    st'.sms_sent_at = some now ∧
    st'.sms_sent_by = some user ∧
    ((∀ r ∈ rs, r.success = false) → st'.sms_status = .failed) ∧
    ((∀ r ∈ rs, r.success = true) → st'.sms_status = .sent) ∧
    ((∃ r ∈ rs, r.success = true) → (∃ r ∈ rs, r.success = false) →
       st'.sms_status = .mixed) := by
  unfold send_sms at h
  by_cases hb : st.phone = [] ∧ st.guardian_phone = []
  · rw [if_pos hb] at h
    exact Option.noConfusion h
  · rw [if_neg hb] at h
    simp only [Option.some.injEq, Prod.mk.injEq] at h
    obtain ⟨h1, h2⟩ := h
    subst h1
    subst h2
    have hpos := unique_phones_length_pos st hb
    have hne : runSends gw (unique_phones st) ≠ [] := by
      intro hnil
      have h0 : unique_phones st = [] := by simpa [runSends] using hnil
      rw [h0] at hpos
      simp at hpos
    refine ⟨hne, ?_, ?_, ?_, ?_, ?_⟩
    · rw [(save_preserves now _).2.2.1]
      exact (applySmsResults_fields user now st _).1
    · rw [(save_preserves now _).2.2.2.1]
      exact (applySmsResults_fields user now st _).2.1
    · intro hall
      rw [(save_preserves now _).2.1, (applySmsResults_fields user now st _).2.2]
      have : successCount (runSends gw (unique_phones st)) = 0 :=
        (successCount_eq_zero_iff _).mpr hall
      simp [this]
    · intro hall
      rw [(save_preserves now _).2.1, (applySmsResults_fields user now st _).2.2]
      have hfail : failureCount (runSends gw (unique_phones st)) = 0 :=
        (failureCount_eq_zero_iff _).mpr hall
      have hsucc : 0 < successCount (runSends gw (unique_phones st)) := by
        rw [successCount_pos_iff]
        obtain ⟨r, hr⟩ := List.exists_mem_of_ne_nil _ hne
        exact ⟨r, hr, hall r hr⟩
      simp [hsucc, hfail]
    · intro hsome hfail
      rw [(save_preserves now _).2.1, (applySmsResults_fields user now st _).2.2]
      have h1 : 0 < successCount (runSends gw (unique_phones st)) :=
        (successCount_pos_iff _).mpr hsome
      have h2 : failureCount (runSends gw (unique_phones st)) ≠ 0 := by
        rw [Ne, failureCount_eq_zero_iff]
        intro hall
        obtain ⟨r, hr, hfalse⟩ := hfail
        rw [hall r hr] at hfalse
        exact Bool.noConfusion hfalse
      simp [h1, h2]

/-- An approved record with two distinct raw phones, used as the witness
scenario for the mixed aggregation. -/
def stMixed : Student :=
  { id := 1, phone := "0712345678".data, guardian_phone := "0798765432".data,
    education_level := .college, course := "Math".data, status := .approved,
    sms_status := .not_sent, sms_sent_at := none, sms_sent_by := none,
    rejection_reason := [], date_processed := some 5, updated_by := none }

/-- A gateway that succeeds for the student phone and fails for the
guardian phone. -/
def gwMixed : Str → SendOutcome :=
  fun p => if p = "0712345678".data then .ok else .fail

/-- The record as it stands after the mixed notify. -/
def stMixedAfter : Student :=
  { stMixed with sms_status := .mixed, sms_sent_at := some 42, sms_sent_by := some 7 }

/-- The per-phone results of the mixed notify. -/
def rsMixed : List PhoneResult :=
  [⟨"0712345678".data, "student".data, true⟩,
   ⟨"0798765432".data, "guardian".data, false⟩]

/-- Witness: the spec's one-succeeds-one-fails scenario, giving
`sms_status = partial` with both outcomes returned and the audit fields
stamped. -/
theorem C1_sms_status_aggregation_witness :
    rsMixed ≠ [] ∧
    stMixedAfter.sms_sent_at = some 42 ∧
    stMixedAfter.sms_sent_by = some 7 ∧
    ((∀ r ∈ rsMixed, r.success = false) → stMixedAfter.sms_status = .failed) ∧
    ((∀ r ∈ rsMixed, r.success = true) → stMixedAfter.sms_status = .sent) ∧
    ((∃ r ∈ rsMixed, r.success = true) → (∃ r ∈ rsMixed, r.success = false) →
       stMixedAfter.sms_status = .mixed) :=
  C1_sms_status_aggregation gwMixed 7 42 stMixed stMixedAfter rsMixed (by decide)

/-! ## Claim C4 — the send-time gate -/

/-- A pending record with phones present. -/
def stPending : Student := { stMixed with id := 2, status := .pending }

/-- An approved record already marked sent. -/
def stAlreadySent : Student := { stMixed with id := 6, sms_status := .sent }

/-- C4 counterexample: `can_send_sms` refuses a pending record and a
record already marked sent, yet the single-record notify endpoint makes
gateway calls for both — it never re-checks the status/sms_status parts
of the gate. -/
theorem C4_counterexample :
    stPending.can_send_sms.1 = false ∧
    (send_sms (fun _ => SendOutcome.ok) 7 42 stPending).map (fun r => r.2.length)
      = some 2 ∧
    stAlreadySent.can_send_sms.1 = false ∧
    (send_sms (fun _ => SendOutcome.ok) 7 42 stAlreadySent).map (fun r => r.2.length)
      = some 2 := by
  decide

/-- C4 amended: the single-record notify endpoint re-checks only the
phone-presence part of the gate — it refuses (HTTP 400, no gateway call)
exactly the records with no phone at all, and for every record with at
least one phone it proceeds to make at least one gateway call regardless
of `status` and `sms_status`. -/
theorem C4_gate_only_phones_rechecked (gw : Str → SendOutcome) (user now : Nat)
    (st : Student) (h : ¬ (st.phone = [] ∧ st.guardian_phone = [])) :
    (∀ st₀ : Student, send_sms gw user now st₀ = none ↔
       st₀.phone = [] ∧ st₀.guardian_phone = []) ∧
    ∃ st' rs, send_sms gw user now st = some (st', rs) ∧ 0 < rs.length := by
  constructor
  · intro st₀
    constructor
    · intro hn
      by_contra hb
      unfold send_sms at hn
      rw [if_neg hb] at hn
      exact Option.noConfusion hn
    · intro hb
      unfold send_sms
      rw [if_pos hb]
  · refine ⟨Student.save now (applySmsResults user now st (runSends gw (unique_phones st))),
      runSends gw (unique_phones st), ?_, ?_⟩
    · unfold send_sms
      rw [if_neg h]
    · have := unique_phones_length_pos st h
      simpa [runSends] using this

/-- Witness: the gate theorem applied at the pending record — the notify
proceeds although `can_send_sms` would refuse it. -/
theorem C4_gate_only_phones_rechecked_witness :
    (∀ st₀ : Student, send_sms gwMixed 7 42 st₀ = none ↔
       st₀.phone = [] ∧ st₀.guardian_phone = []) ∧
    ∃ st' rs, send_sms gwMixed 7 42 stPending = some (st', rs) ∧ 0 < rs.length :=
  C4_gate_only_phones_rechecked gwMixed 7 42 stPending (by decide)

/-! ## Claim C6 — recipient deduplication -/

/-- A record whose two raw phone spellings normalize to the same
canonical number. -/
def stDupNorm : Student :=
  { stMixed with id := 5, phone := "0712345678".data, guardian_phone := "712345678".data }

/-- C6 counterexample: both phones of `stDupNorm` normalize to
`254712345678`, yet the notify endpoint makes two gateway calls — the
deduplication works on the raw stored strings, so the same destination
is sent to twice. -/
theorem C6_counterexample :
    clean_phone_number stDupNorm.phone = .ok ("254712345678".data) ∧
    clean_phone_number stDupNorm.guardian_phone = .ok ("254712345678".data) ∧
    (send_sms (fun _ => SendOutcome.ok) 7 42 stDupNorm).map (fun r => r.2.length)
      = some 2 := by
  decide

/-- C6 amended: deduplication is by the raw stored phone string, not the
normalized number: when the student and guardian fields hold the
identical string, the recipient set is a single entry tagged
`student/guardian` and exactly one gateway call is made; raw-distinct
spellings are not merged even when they normalize identically (see the
counterexample). -/
theorem C6_dedup_by_raw_string (gw : Str → SendOutcome) (user now : Nat)
    (st : Student) (h1 : st.phone ≠ []) (h2 : st.guardian_phone = st.phone) :
    unique_phones st = [(st.phone, "student/guardian".data)] ∧
    (send_sms gw user now st).map (fun r => r.2.map (fun pr => (pr.phone, pr.role)))
      = some [(st.phone, "student/guardian".data)] := by
  have hpts : phones_to_send st =
      [("student".data, st.phone), ("guardian".data, st.phone)] := by
    simp [phones_to_send, h1, h2]
  have hstep1 : addPhone [] ("student".data, st.phone) = [(st.phone, "student".data)] := rfl
  have hfind : assocFind [(st.phone, "student".data)] st.phone = some ("student".data) := by
    simp [assocFind]
  have hstep2 : addPhone [(st.phone, "student".data)] ("guardian".data, st.phone)
      = [(st.phone, "student/guardian".data)] := by
    unfold addPhone
    rw [hfind]
    dsimp only
    rw [if_neg (by decide : ¬ ("guardian".data <:+: "student".data))]
    simp [assocUpdate]
  have huniq : unique_phones st = [(st.phone, "student/guardian".data)] := by
    unfold unique_phones
    rw [hpts]
    show addPhone (addPhone [] ("student".data, st.phone)) ("guardian".data, st.phone) = _
    rw [hstep1, hstep2]
  refine ⟨huniq, ?_⟩
  unfold send_sms
  rw [if_neg (fun hb => h1 hb.1)]
  simp [runSends, huniq]

/-- Witness: a record whose two phone fields hold the identical string
gets exactly one send, tagged with the merged role. -/
theorem C6_dedup_by_raw_string_witness :
    unique_phones { stMixed with guardian_phone := stMixed.phone }
      = [({ stMixed with guardian_phone := stMixed.phone }.phone, "student/guardian".data)] ∧
    (send_sms gwMixed 7 42 { stMixed with guardian_phone := stMixed.phone }).map
        (fun r => r.2.map (fun pr => (pr.phone, pr.role)))
      = some [({ stMixed with guardian_phone := stMixed.phone }.phone,
               "student/guardian".data)] :=
  C6_dedup_by_raw_string gwMixed 7 42 { stMixed with guardian_phone := stMixed.phone }
    (by decide) (by decide)

/-! ## Claim C7 — provider response interpretation -/

/-- C7: under a configured API key and a canonical phone, the real
provider's send succeeds exactly when the HTTP status is 200, the body
parses as JSON, and the status-code field the code inspects equals the
success sentinel `1000`; every timeout, connection error, other
exception, non-200 status, parse failure or other provider code is a
failure, and the operation is a total function — every exception arm
returns a failure pair instead of propagating. -/
theorem C7_provider_success_criterion (api_key : Str) (net : HttpResult)
    (phone message : Str) (hk : api_key ≠ [])
    (hp : ("2547".data.isPrefixOf phone = true) ∧ phone.length = 12) :
    (send_via_blessed_texts api_key net phone message).1 = true ↔
      ∃ body text, net = .response 200 (some body) text ∧
        body.successField = some ("1000".data) := by
  unfold send_via_blessed_texts
  rw [if_neg hk, if_neg (not_not_intro hp)]
  cases net with
  | response code parsed text =>
      by_cases hc : code = 200
      · subst hc
        cases parsed with
        | none => simp [JsonBody.successField]
        | some body =>
            cases body with
            | jlist items =>
                cases items with
                | nil => simp [JsonBody.successField]
                | cons first rest =>
                    by_cases hs : first.status_code = some ("1000".data) <;>
                      simp [hs, JsonBody.successField]
            | jdict c =>
                by_cases hd : c = some ("1000".data) <;>
                  simp [hd, JsonBody.successField]
            | jother => simp [JsonBody.successField]
      · simp [hc]
  | timeout => simp
  | connError => simp
  | otherExc msg => simp

/-- Witness: a 200 response whose list body carries status code 1000 is
interpreted as success. -/
theorem C7_provider_success_criterion_witness :
    (send_via_blessed_texts ("k".data)
        (.response 200 (some (.jlist [⟨some ("1000".data), none⟩])) [])
        ("254712345678".data) ("hello".data)).1 = true ↔
      ∃ body text,
        (HttpResult.response 200 (some (.jlist [⟨some ("1000".data), none⟩])) []
          : HttpResult) = .response 200 (some body) text ∧
        body.successField = some ("1000".data) :=
  C7_provider_success_criterion ("k".data)
    (.response 200 (some (.jlist [⟨some ("1000".data), none⟩])) [])
    ("254712345678".data) ("hello".data) (by decide) (by decide)

/-! ## Claim C5 — bulk notification -/

/-- Claim-side predicate: at least one of the record's unique-phone sends
succeeded under gateway `gw`. -/
def recordSucceeds (gw : Nat → Str → SendOutcome) (s : Student) : Bool :=
  (unique_phones s).any (fun pr => gw s.id pr.1 == SendOutcome.ok)

/-- The `student_results` entry `bulkStep` produces for a record. -/
def bulkEntry (gw : Nat → Str → SendOutcome) (s : Student) : StudentResult :=
  if unique_phones s = [] then ⟨s.id, false, 0, 0⟩
  else ⟨s.id, decide (successCount (runSends (gw s.id) (unique_phones s)) > 0),
        successCount (runSends (gw s.id) (unique_phones s)),
        failureCount (runSends (gw s.id) (unique_phones s))⟩

/-- The persisted record `bulkStep` produces for a record (phoneless
records are skipped without saving). -/
def bulkUpdate (gw : Nat → Str → SendOutcome) (user now : Nat) (s : Student) : Student :=
  if unique_phones s = [] then s
  else Student.save now (applySmsResults user now s (runSends (gw s.id) (unique_phones s)))

theorem successCount_runSends_pos (g : Str → SendOutcome) (ps : List (Str × Str)) :
    (0 < successCount (runSends g ps)) ↔
      ps.any (fun pr => g pr.1 == SendOutcome.ok) = true := by
  induction ps with
  | nil => simp [runSends, successCount]
  | cons p t ih =>
      cases hg : g p.1 <;>
        simp [runSends, successCount, List.filter_cons, hg, List.any_cons] at ih ⊢ <;>
        exact ih

theorem recordSucceeds_iff (gw : Nat → Str → SendOutcome) (s : Student) :
    recordSucceeds gw s = true ↔
      0 < successCount (runSends (gw s.id) (unique_phones s)) := by
  unfold recordSucceeds
  exact (successCount_runSends_pos _ _).symm

/-- One step of the bulk fold, written in terms of the per-record
summary functions. -/
theorem bulkStep_spec (gw : Nat → Str → SendOutcome) (user now : Nat)
    (acc : BulkAcc) (s : Student) :
    bulkStep gw user now acc s =
      { success_count := acc.success_count + (if recordSucceeds gw s then 1 else 0),
        failure_count := acc.failure_count + (if recordSucceeds gw s then 0 else 1),
        results := acc.results ++ [bulkEntry gw s],
        updated := acc.updated ++ [bulkUpdate gw user now s] } := by
  by_cases hu : unique_phones s = []
  · have hr : recordSucceeds gw s = false := by
      simp [recordSucceeds, hu]
    simp [bulkStep, bulkEntry, bulkUpdate, hu, hr]
  · by_cases hp : successCount (runSends (gw s.id) (unique_phones s)) > 0
    · have hr : recordSucceeds gw s = true := (recordSucceeds_iff gw s).mpr hp
      simp [bulkStep, bulkEntry, bulkUpdate, hu, hp, hr]
    · have hr : recordSucceeds gw s = false := by
        rw [Bool.eq_false_iff, Ne, recordSucceeds_iff]
        exact hp
      simp [bulkStep, bulkEntry, bulkUpdate, hu, hp, hr]

/-- The bulk fold processes every record of its input list — one result
entry, one count and one updated record per input, independent of any
gateway outcome (including raised exceptions, which `runSends` records as
failures). -/
theorem bulk_fold_spec (gw : Nat → Str → SendOutcome) (user now : Nat)
    (l : List Student) (acc : BulkAcc) :
    l.foldl (bulkStep gw user now) acc =
      { success_count := acc.success_count + (l.filter (fun s => recordSucceeds gw s)).length,
        failure_count :=
          acc.failure_count + (l.filter (fun s => !(recordSucceeds gw s))).length,
        results := acc.results ++ l.map (bulkEntry gw),
        updated := acc.updated ++ l.map (bulkUpdate gw user now) } := by
  induction l generalizing acc with
  | nil => simp
  | cons s t ih =>
      rw [List.foldl_cons, bulkStep_spec, ih]
      cases hr : recordSucceeds gw s <;>
        simp [List.filter_cons, hr, BulkAcc.mk.injEq] <;> omega

/-- C5: whenever the bulk endpoint returns a report, exactly the requested
records currently approved were processed — one result entry and one
updated record per eligible record in order, for every gateway behaviour
including raising ones, so no per-record failure aborts the rest; the
success count is the number of eligible records with at least one
successful phone send and the failure count is the number without any;
and a phone-bearing record's own sms_status lands in {sent, partial}
exactly when it had a successful send. -/
theorem C5_bulk_processing (gw : Nat → Str → SendOutcome) (user now : Nat)
    (store : List Student) (student_ids : List Nat) (acc : BulkAcc)
    (h : bulk_send_sms gw user now store student_ids = .report acc) :
    acc.results.map StudentResult.student_id
      = (eligible_students store student_ids).map Student.id ∧
    acc.updated = (eligible_students store student_ids).map (bulkUpdate gw user now) ∧
    acc.success_count
      = ((eligible_students store student_ids).filter
          (fun s => recordSucceeds gw s)).length ∧
    acc.failure_count
      = ((eligible_students store student_ids).filter
          (fun s => !(recordSucceeds gw s))).length ∧
    (∀ s : Student, unique_phones s ≠ [] →
       (recordSucceeds gw s = true ↔
         ((bulkUpdate gw user now s).sms_status = .sent ∨
          (bulkUpdate gw user now s).sms_status = .mixed))) := by
  unfold bulk_send_sms at h
  by_cases hids : student_ids = []
  · rw [if_pos hids] at h
    exact BulkResponse.noConfusion h
  · rw [if_neg hids] at h
    simp only [] at h
    by_cases hel : eligible_students store student_ids = []
    · rw [if_pos hel] at h
      exact BulkResponse.noConfusion h
    · rw [if_neg hel] at h
      injection h with h
      subst h
      rw [bulk_fold_spec]
      refine ⟨?_, by simp, by simp, by simp, ?_⟩
      · simp only [List.nil_append, List.map_map]
        apply List.map_congr_left
        intro s _
        unfold bulkEntry
        dsimp only [Function.comp]
        split <;> rfl
      · intro s hu
        rw [recordSucceeds_iff]
        unfold bulkUpdate
        rw [if_neg hu]
        rw [(save_preserves now _).2.1, (applySmsResults_fields user now s _).2.2]
        by_cases hp : successCount (runSends (gw s.id) (unique_phones s)) > 0
        · by_cases hf : failureCount (runSends (gw s.id) (unique_phones s)) = 0 <;>
            simp [hp, hf]
        · simp [hp]

/-- The bulk witness store: three approved records, one pending record;
the gateway raises for record 12 and succeeds for the others. -/
def storeBulk : List Student :=
  [ { stMixed with id := 11 },
    { stMixed with id := 12 },
    { stMixed with id := 13, status := .pending },
    { stMixed with id := 14 } ]

/-- A gateway that raises an exception for record 12's sends. -/
def gwBulk : Nat → Str → SendOutcome :=
  fun i _ => if i = 12 then .raises else .ok

/-- The aggregate report of the bulk witness run. -/
def accBulk : BulkAcc :=
  { success_count := 2, failure_count := 1,
    results := [⟨11, true, 2, 0⟩, ⟨12, false, 0, 2⟩, ⟨14, true, 2, 0⟩],
    updated :=
      [ { stMixed with id := 11, sms_status := .sent, sms_sent_at := some 42, sms_sent_by := some 7 },
        { stMixed with id := 12, sms_status := .failed, sms_sent_at := some 42, sms_sent_by := some 7 },
        { stMixed with id := 14, sms_status := .sent, sms_sent_at := some 42, sms_sent_by := some 7 } ] }

/-- Witness: the bulk run over ids [11,12,13,14,99] — the pending record
13 and the unknown id 99 are silently dropped, record 12's raised
exceptions become its failed outcome without stopping record 14, and the
counts are success 2 / failure 1. -/
theorem C5_bulk_processing_witness :
    accBulk.results.map StudentResult.student_id
      = (eligible_students storeBulk [11, 12, 13, 14, 99]).map Student.id ∧
    accBulk.updated
      = (eligible_students storeBulk [11, 12, 13, 14, 99]).map (bulkUpdate gwBulk 7 42) ∧
    accBulk.success_count
      = ((eligible_students storeBulk [11, 12, 13, 14, 99]).filter
          (fun s => recordSucceeds gwBulk s)).length ∧
    accBulk.failure_count
      = ((eligible_students storeBulk [11, 12, 13, 14, 99]).filter
          (fun s => !(recordSucceeds gwBulk s))).length ∧
    (∀ s : Student, unique_phones s ≠ [] →
       (recordSucceeds gwBulk s = true ↔
         ((bulkUpdate gwBulk 7 42 s).sms_status = .sent ∨
          (bulkUpdate gwBulk 7 42 s).sms_status = .mixed))) :=
  C5_bulk_processing gwBulk 7 42 storeBulk [11, 12, 13, 14, 99] accBulk (by rfl)
